import Mathlib

/-!
Verification of the edge data-processing pipeline
(src/edge/services/data-pipeline/app) of the bioprocess-twin repository.

Shallow embedding conventions:
* Python floats are modelled as exact rationals.  A possibly-NaN float is
  an Option value, with none standing for NaN; the NaN-propagation of
  float arithmetic becomes Option-propagation.
* A pandas DataFrame with columns _time, _value (a sensor window) is a
  list of pairs of a time (seconds, rational) and an optional value.
* Functions of the source that call irrational primitives (the float
  square root used by numpy std, the natural log used for the growth
  rate) are parameterised by the primitive, written sqrtQ and lnQ: every
  theorem proved below holds for all implementations of those
  primitives, in particular for the machine ones.
* Fallible queries are values of type Except String Frame.
-/

namespace Pipeline

/-- A possibly-NaN float value: none stands for NaN. -/
abbrev OQ := Option ℚ

/-- NaN-propagating addition. -/
def oAdd : OQ → OQ → OQ
  | some a, some b => some (a + b)
  | _, _ => none

/-- NaN-propagating subtraction. -/
def oSub : OQ → OQ → OQ
  | some a, some b => some (a - b)
  | _, _ => none

/-- NaN-propagating multiplication. -/
def oMul : OQ → OQ → OQ
  | some a, some b => some (a * b)
  | _, _ => none

/-- NaN-propagating division (all uses in the source are guarded by a
nonzero denominator). -/
def oDiv : OQ → OQ → OQ
  | some a, some b => some (a / b)
  | _, _ => none

/-- A sensor window: rows of (_time in seconds, _value), as returned by
the gateway.  An empty list is an empty DataFrame. -/
abbrev Frame := List (ℚ × OQ)

/-- The _value column of a window. -/
def values (f : Frame) : List OQ := f.map Prod.snd

/-- numpy mean: NaN as soon as one entry is NaN (np.mean does not skip
NaN), NaN on an empty array. -/
def npMean (vs : List OQ) : OQ :=
  if vs.isEmpty then none
  else if vs.any (fun v => v.isNone) then none
  else some ((vs.filterMap id).sum / vs.length)

/-- numpy population variance, with the same NaN behaviour as npMean.
numpy std is the square root of this; the source only ever compares the
std against zero or uses it scaled, so the square root itself is the
parameter sqrtQ below. -/
def npVar (vs : List OQ) : OQ :=
  match npMean vs with
  | none => none
  | some m => some (((vs.filterMap id).map (fun x => (x - m) ^ 2)).sum / vs.length)

/-- numpy min: NaN-propagating. -/
def npMin (vs : List OQ) : OQ :=
  if vs.any (fun v => v.isNone) then none
  else match vs.filterMap id with
    | [] => none
    | x :: xs => some (xs.foldl min x)

/-- numpy max: NaN-propagating. -/
def npMax (vs : List OQ) : OQ :=
  if vs.any (fun v => v.isNone) then none
  else match vs.filterMap id with
    | [] => none
    | x :: xs => some (xs.foldl max x)

/-- pandas Series.mean: skips NaN entries; NaN when no finite entry is
left (also on an empty series). -/
def pdMean (vs : List OQ) : OQ :=
  let fin := vs.filterMap id
  if fin.isEmpty then none else some (fin.sum / fin.length)

/-- windows.get(tag, pd.DataFrame()): the window stored under a tag, or
an empty frame. -/
def wget (ws : List (String × Frame)) (tag : String) : Frame :=
  (ws.lookup tag).getD []

/-- df.get("_value", pd.Series()).mean() on the window stored under a
tag: the skipna mean of its value column. -/
def col_mean (f : Frame) : OQ := pdMean (values f)

/-! ## Configuration (config.py, class Settings, default values) -/

/-- Settings.window_size_seconds (default 30). -/
def window_size_seconds : ℚ := 30

/-- Settings.max_missing_duration_interpolate_minutes. -/
def max_missing_duration_interpolate_minutes : ℚ := 5

/-- Settings.max_missing_duration_kalman_minutes. -/
def max_missing_duration_kalman_minutes : ℚ := 30

/-- Settings.outlier_zscore_threshold. -/
def outlier_zscore_threshold : ℚ := 3

/-- Settings.working_volume_l. -/
def working_volume_l : ℚ := 9 / 10

/-- Settings.standard_pressure_bar. -/
def standard_pressure_bar : ℚ := 1013 / 1000

/-- Settings.air_o2_fraction. -/
def air_o2_fraction : ℚ := 21 / 100

/-- Settings.physical_bounds: the min/max physical-plausibility table,
keyed by canonical tag name. -/
def physical_bounds (tag : String) : Option (ℚ × ℚ) :=
  List.lookup tag
    [("pH", (2, 10)),
     ("DO", (0, 100)),
     ("OD", (0, 100)),
     ("Temp_Broth", (20, 40)),
     ("Temp_pH_Probe", (20, 40)),
     ("Temp_DO_Probe", (20, 40)),
     ("Temp_Stirrer_Motor", (15, 100)),
     ("Temp_Exhaust", (20, 50)),
     ("Gas_MFC_air", (0, 3)),
     ("Stir_SP", (0, 1200)),
     ("Stir_torque", (0, 100)),
     ("Reactor_Pressure", (4/5, 8/5)),
     ("Weight", (0, 15)),
     ("Heater_PID_out", (0, 100)),
     ("Base_Pump_Rate", (0, 15)),
     ("Off_Gas_CO2", (0, 10)),
     ("Off_Gas_O2", (15, 25)),
     ("Gas_Flow_Inlet", (0, 3)),
     ("Gas_Flow_Outlet", (0, 7/2))]

/-! ## Data cleaning (data_cleaning.py, class DataCleaner) -/

/-- The five process-wide QualityStats counters of the DataCleaner. -/
structure QualityStats where
  missing_count : ℕ
  outlier_count : ℕ
  invalid_count : ℕ
  interpolated_count : ℕ
  kalman_filtered_count : ℕ
  deriving Repr, DecidableEq

/-- The zeroed counters, as set in DataCleaner.__init__ and reset_stats. -/
def initStats : QualityStats := ⟨0, 0, 0, 0, 0⟩

/-- The report part returned by the _handle_missing stage. -/
structure MissingReport where
  missing_count : ℕ
  interpolation_method : String
  missing_duration_minutes : Option ℚ
  alarm : Option String
  deriving Repr, DecidableEq

/-- The report part returned by the _handle_outliers stage. -/
structure OutlierReport where
  outliers_detected : ℕ
  outlier_indices : List ℕ
  deriving Repr, DecidableEq

/-- The report part returned by the _validate_bounds stage; the alarm
key is always present in the returned dict (None when no violation). -/
structure BoundsReport where
  invalid_values : ℕ
  alarm : Option String
  deriving Repr, DecidableEq

/-- The quality-report dict assembled by clean_window.  Each field is an
Option because the corresponding dict key may be absent (the empty-frame
report carries only status and action).  The alarm field is doubly
optional: the outer Option is key presence, the inner is the Python None
value. -/
structure CleanReport where
  status : Option String
  tag : Option String
  original_count : Option ℕ
  missing_duration_seconds : Option ℚ
  missing_count : Option ℕ
  interpolation_method : Option String
  missing_duration_minutes : Option ℚ
  outliers_detected : Option ℕ
  outlier_indices : Option (List ℕ)
  invalid_values : Option ℕ
  alarm : Option (Option String)
  action : Option String
  deriving Repr, DecidableEq

/-- The report returned for an empty window: status "empty", action
"none", no other key. -/
def emptyReport : CleanReport :=
  ⟨some "empty", none, none, none, none, none, none, none, none, none, none, some "none"⟩

/-- Number of NaN entries in the value column. -/
def missingCount (f : Frame) : ℕ := (values f).countP (fun v => v.isNone)

/-- The value of (df._time.max() - df._time.min()).total_seconds() of a
nonempty frame (0 for an empty one, unreachable in the source). -/
def timeSpanSeconds (f : Frame) : ℚ :=
  match f.map Prod.fst with
  | [] => 0
  | t :: ts => ts.foldl max t - ts.foldl min t

/-- The equivalent gap duration estimated by _handle_missing:
(missing_count / total_count) * (span_seconds / 60) minutes. -/
def missing_gap_minutes (f : Frame) : ℚ :=
  ((missingCount f : ℚ) / (f.length : ℚ)) * (timeSpanSeconds f / 60)

/-- The value at the nearest non-NaN position strictly before index i. -/
def prevValid (vs : List OQ) (i : ℕ) : Option (ℕ × ℚ) :=
  ((List.range i).filterMap (fun j => (vs.getD j none).map (fun x => (j, x)))).getLast?

/-- The value at the nearest non-NaN position strictly after index i. -/
def nextValid (vs : List OQ) (i : ℕ) : Option (ℕ × ℚ) :=
  (((List.range vs.length).drop (i + 1)).filterMap
    (fun j => (vs.getD j none).map (fun x => (j, x)))).head?

/-- pandas Series.interpolate(method="linear", limit_direction="both"):
interior NaN runs are replaced by the straight line between the
enclosing finite values (on the integer index), leading NaNs by the
first finite value, trailing NaNs by the last finite value; an all-NaN
series is unchanged. -/
def interpolateLinear (vs : List OQ) : List OQ :=
  (List.range vs.length).map (fun i =>
    match vs.getD i none with
    | some x => some x
    | none =>
      match prevValid vs i, nextValid vs i with
      | some (j, vj), some (k, vk) =>
          some (vj + (vk - vj) * ((i : ℚ) - j) / ((k : ℚ) - j))
      | some (_, vj), none => some vj
      | none, some (_, vk) => some vk
      | none, none => none)

/-- Series.fillna(method="ffill"): each NaN takes the last preceding
finite value, when one exists. -/
def ffill (vs : List OQ) : List OQ :=
  (List.range vs.length).map (fun i =>
    match vs.getD i none with
    | some x => some x
    | none => (prevValid vs i).map Prod.snd)

/-- fillna(method="bfill") after ffill: remaining leading NaNs take the
first following finite value. -/
def bfill (vs : List OQ) : List OQ :=
  (List.range vs.length).map (fun i =>
    match vs.getD i none with
    | some x => some x
    | none => (nextValid vs i).map Prod.snd)

/-- One Kalman forward step of pykalman with unit transition and
observation matrices, observation variance 1, transition variance 1/10:
from the predicted mean and covariance and the observation, the filtered
mean and covariance.  A NaN observation is not masked by pykalman and
poisons the mean (none), while the covariances stay numeric. -/
def kalmanUpdate (xPred : OQ) (pPred : ℚ) (obs : OQ) : OQ × ℚ :=
  let k := pPred / (pPred + 1)
  (oAdd xPred (oMul (some k) (oSub obs xPred)), pPred - k * pPred)

/-- The forward (filter) pass: for each time step the predicted mean,
predicted covariance, filtered mean and filtered covariance.  The
initial state mean is the first valid measurement, the initial state
covariance 1. -/
def kalmanForward (x0 : ℚ) (obs : List OQ) : List (OQ × ℚ × OQ × ℚ) :=
  match obs with
  | [] => []
  | o :: os =>
    let step0 := kalmanUpdate (some x0) 1 o
    let rec go (xf : OQ) (pf : ℚ) : List OQ → List (OQ × ℚ × OQ × ℚ)
      | [] => []
      | o :: os =>
        let xp := xf
        let pp := pf + 1/10
        let (xf', pf') := kalmanUpdate xp pp o
        (xp, pp, xf', pf') :: go xf' pf' os
    (some x0, 1, step0.1, step0.2) :: go step0.1 step0.2 os

/-- The backward (Rauch-Tung-Striebel) pass of kf.smooth, returning the
smoothed means.  Processes the forward results from the end: the last
smoothed mean is the last filtered mean, and each earlier one is
xf + (pf / ppNext) * (xsNext - xpNext). -/
def kalmanBackward : List (OQ × ℚ × OQ × ℚ) → List OQ
  | [] => []
  | (_, _, xf, pf) :: rest =>
    match kalmanBackward rest with
    | [] => [xf]
    | xsNext :: tail =>
      match rest with
      | [] => [xf]
      | (xpNext, ppNext, _, _) :: _ =>
        oAdd xf (oMul (some (pf / ppNext)) (oSub xsNext xpNext)) :: xsNext :: tail

/-- The smoothed state means of pykalman KalmanFilter.smooth on the
whole value column. -/
def kalmanSmooth (x0 : ℚ) (obs : List OQ) : List OQ :=
  kalmanBackward (kalmanForward x0 obs)

/-- Replace the value column of a frame. -/
def withValues (f : Frame) (vs : List OQ) : Frame :=
  f.zipWith (fun p v => (p.1, v)) vs

/-- Stage _apply_kalman_filter: with fewer than two valid measurements, fall
back to forward-then-backward fill; otherwise smooth the whole series
with the scalar Kalman smoother initialised at the first valid
measurement. -/
def apply_kalman_filter (f : Frame) : Frame :=
  let measurements := (values f).filterMap id
  match measurements with
  | [] => withValues f (bfill (ffill (values f)))
  | [_] => withValues f (bfill (ffill (values f)))
  | m0 :: _ :: _ => withValues f (kalmanSmooth m0 (values f))

/-- Stage _handle_missing: count NaNs; when none, do nothing; otherwise
estimate the gap duration and select linear interpolation (gap below 5
minutes), the Kalman smoother (gap below 30 minutes) or failure with the
missing_data_too_long alarm (NaNs left in place).  Also increments the
interpolated / kalman-filtered global counters. -/
def handle_missing (stats : QualityStats) (f : Frame) :
    Frame × MissingReport × QualityStats :=
  let mc := missingCount f
  if mc = 0 then (f, ⟨0, "none", none, none⟩, stats)
  else
    let gap := missing_gap_minutes f
    if gap < max_missing_duration_interpolate_minutes then
      (withValues f (interpolateLinear (values f)),
       ⟨mc, "linear", some gap, none⟩,
       { stats with interpolated_count := stats.interpolated_count + mc })
    else if gap < max_missing_duration_kalman_minutes then
      (apply_kalman_filter f,
       ⟨mc, "kalman", some gap, none⟩,
       { stats with kalman_filtered_count := stats.kalman_filtered_count + mc })
    else
      (f, ⟨mc, "failed", some gap, some "missing_data_too_long"⟩, stats)

/-- np.clip(v, lo, hi) (hi wins when lo exceeds hi), NaN unchanged. -/
def clipVal (lo hi : ℚ) (v : OQ) : OQ := v.map (fun x => min (max x lo) hi)

/-- Stage _handle_outliers, parameterised by the float square root sqrtQ used
by np.std: with fewer than 3 rows, or a zero std, or any NaN (which
makes mean and std NaN, every z-score comparison false and the count
zero), the frame is unchanged; otherwise rows with |z| above 3 are
counted and the whole column is clipped to [mean - 3 std, mean + 3 std]. -/
def handle_outliers (sqrtQ : ℚ → ℚ) (f : Frame) : Frame × OutlierReport :=
  if f.length < 3 then (f, ⟨0, []⟩)
  else
    match npMean (values f), npVar (values f) with
    | some m, some var =>
      let s := sqrtQ var
      if s = 0 then (f, ⟨0, []⟩)
      else
        let zBig : OQ → Bool := fun v =>
          match v with
          | some x => decide (|(x - m) / s| > outlier_zscore_threshold)
          | none => false
        let cnt := (values f).countP zBig
        if cnt > 0 then
          (withValues f ((values f).map (clipVal (m - 3 * s) (m + 3 * s))),
           ⟨cnt, ((List.range f.length).filter
                   (fun i => zBig ((values f).getD i none)))⟩)
        else (f, ⟨0, []⟩)
    | _, _ => (f, ⟨0, []⟩)

/-- Stage _validate_bounds: for a tag with declared physical bounds, replace
every finite out-of-bounds value with NaN and raise the
physical_bounds_violation alarm; NaN entries are never flagged (float
comparisons with NaN are false). -/
def validate_bounds (f : Frame) (tag : String) : Frame × BoundsReport :=
  match physical_bounds tag with
  | none => (f, ⟨0, none⟩)
  | some (lo, hi) =>
    let invalid : OQ → Bool := fun v =>
      match v with
      | some x => decide (x < lo ∨ x > hi)
      | none => false
    let cnt := (values f).countP invalid
    if cnt > 0 then
      (f.map (fun p => if invalid p.2 then (p.1, none) else p),
       ⟨cnt, some "physical_bounds_violation"⟩)
    else (f, ⟨0, none⟩)

/-- Boolean order on times: a is at most b when b is not below a. -/
def timeLe (a b : ℚ) : Bool := !(Rat.blt b a)

/-- Insert a row into a time-sorted frame, before the first row whose
time is not earlier. -/
def insertRow (a : ℚ × OQ) : Frame → Frame
  | [] => [a]
  | b :: bs => if timeLe a.1 b.1 then a :: b :: bs else b :: insertRow a bs

/-- df.sort_values("_time"): sort rows by time (an insertion sort; the
order of rows with equal times is unspecified in the source, which uses
an unstable quicksort). -/
def sortFrame (f : Frame) : Frame := f.foldr insertRow []

/-- clean_window: empty frames are returned unchanged with the
status-empty report and untouched global stats; otherwise sort by time,
run the three stages in order, assemble the report dict (the bounds
stage's dict always carries an alarm key, so its update overwrites any
alarm set by the missing stage) and add the stage counts to the global
QualityStats. -/
def clean_window (sqrtQ : ℚ → ℚ) (stats : QualityStats) (f : Frame) (tag : String) :
    Frame × CleanReport × QualityStats :=
  if f.isEmpty then (f, emptyReport, stats)
  else
    let f1 := sortFrame f
    let (f2, mrep, stats1) := handle_missing stats f1
    let (f3, orep) := handle_outliers sqrtQ f2
    let (f4, brep) := validate_bounds f3 tag
    let report : CleanReport :=
      ⟨none, some tag, some f1.length, some 0,
       some mrep.missing_count, some mrep.interpolation_method,
       mrep.missing_duration_minutes,
       some orep.outliers_detected, some orep.outlier_indices,
       some brep.invalid_values, some brep.alarm, some "none"⟩
    (f4, report,
     { stats1 with
        missing_count := stats1.missing_count + mrep.missing_count,
        outlier_count := stats1.outlier_count + orep.outliers_detected,
        invalid_count := stats1.invalid_count + brep.invalid_values })

/-! ## Feature engineering (feature_engineering.py, class FeatureEngineer) -/

/-- scipy.stats.linregress slope of the values against the integer
sample index 0, 1, ...; NaN when any value is NaN. -/
def slopeOLS (vs : List OQ) : OQ :=
  if vs.any (fun v => v.isNone) then none
  else
    let ys := vs.filterMap id
    let n := ys.length
    let xbar : ℚ := ((n : ℚ) - 1) / 2
    let ybar : ℚ := ys.sum / n
    let pts := (List.range n).zip ys
    let sxy := (pts.map (fun p => ((p.1 : ℚ) - xbar) * (p.2 - ybar))).sum
    let sxx := (pts.map (fun p => ((p.1 : ℚ) - xbar) ^ 2)).sum
    some (sxy / sxx)

/-- Stage _compute_basic_features: for every tag whose window has at least two
rows, the mean, population std, min, max and index slope of the value
column, under the keys tag_mean, tag_std, tag_min, tag_max, tag_slope. -/
def compute_basic_features (sqrtQ : ℚ → ℚ) (ws : List (String × Frame)) :
    List (String × OQ) :=
  ws.flatMap (fun p =>
    if p.2.length < 2 then []
    else
      let vs := values p.2
      [(p.1 ++ "_mean", npMean vs),
       (p.1 ++ "_std", (npVar vs).map sqrtQ),
       (p.1 ++ "_min", npMin vs),
       (p.1 ++ "_max", npMax vs),
       (p.1 ++ "_slope", slopeOLS vs)])

/-- Stage _compute_gas_balance_features: skipna means of inlet and outlet flow
(L/min), off-gas CO2 and O2 (percent, converted to fractions) and
reactor pressure; when any required mean is NaN no feature is produced;
the outlet flow defaults to the inlet flow; flows are converted to L/h,
the pressure correction is P / P_std, and CER, OUR (divided by 22.4 for
mol/L/h), their volumetric forms and RQ (NaN unless OUR is positive)
are produced. -/
def compute_gas_balance_features (ws : List (String × Frame)) :
    List (String × OQ) :=
  let F_in := col_mean (wget ws "Gas_Flow_Inlet")
  let F_out := col_mean (wget ws "Gas_Flow_Outlet")
  let y_CO2_out := (col_mean (wget ws "Off_Gas_CO2")).map (fun x => x / 100)
  let y_O2_out := (col_mean (wget ws "Off_Gas_O2")).map (fun x => x / 100)
  let P_reactor := col_mean (wget ws "Reactor_Pressure")
  match F_in, y_CO2_out, y_O2_out, P_reactor with
  | some fin, some yco2, some yo2, some p =>
    let fout := F_out.getD fin
    let F_in_h := fin * 60
    let F_out_h := fout * 60
    let pressure_correction := p / standard_pressure_bar
    let CER := F_in_h * yco2 * pressure_correction / working_volume_l / (224/10)
    let O2_consumed_h := (F_in_h * air_o2_fraction - F_out_h * yo2) * pressure_correction
    let OUR := O2_consumed_h / working_volume_l / (224/10)
    [("CER", some CER),
     ("CER_volumetric", some (F_in_h * yco2 * pressure_correction / working_volume_l)),
     ("OUR", some OUR),
     ("OUR_volumetric", some (O2_consumed_h / working_volume_l)),
     ("RQ", if OUR > 0 then some (CER / OUR) else none)]
  | _, _, _, _ => []

/-- The b coefficient (first-order term at the window centre) of the
least-squares quadratic through five samples. -/
def savgolLin (w : List ℚ) : ℚ :=
  match w with
  | [y0, y1, _, y3, y4] => (-2 * y0 - y1 + y3 + 2 * y4) / 10
  | _ => 0

/-- The c coefficient (second-order term) of the least-squares quadratic
through five samples. -/
def savgolQuad (w : List ℚ) : ℚ :=
  match w with
  | [y0, y1, y2, y3, y4] => (2 * y0 - y1 - 2 * y2 - y3 + 2 * y4) / 14
  | _ => 0

/-- scipy.signal.savgol_filter(ys, 5, polyorder=2, deriv=1, delta=1) in
the default interp mode, for length at least 5: interior samples take
the derivative of the least-squares quadratic on their centred
five-sample window (NaN when the window holds a NaN); the two samples at
each boundary take the derivative of the quadratic fitted to the
outermost five samples, whose np.polyfit raises on NaN (none result,
caught by the caller). -/
def savgolDeriv1 (ys : List OQ) : Option (List OQ) :=
  let n := ys.length
  let first5 := (ys.take 5).filterMap id
  let last5 := (ys.drop (n - 5)).filterMap id
  if first5.length < 5 ∨ last5.length < 5 then none
  else
    let bL := savgolLin first5
    let cL := savgolQuad first5
    let bR := savgolLin last5
    let cR := savgolQuad last5
    some ((List.range n).map (fun i =>
      if i = 0 then some (bL - 4 * cL)
      else if i = 1 then some (bL - 2 * cL)
      else if i = n - 2 then some (bR + 2 * cR)
      else if i = n - 1 then some (bR + 4 * cR)
      else
        let w := (ys.drop (i - 2)).take 5
        if w.any (fun v => v.isNone) then none
        else some (savgolLin (w.filterMap id))))

/-- Stage _compute_growth_rate, parameterised by the float natural log lnQ:
with an OD window of at least five rows, floor the OD at 0.01, take the
log, apply the five-point order-2 Savitzky-Golay derivative and emit the
last derivative scaled to per-hour as mu, with mu_mean and mu_std over
the whole derivative; no feature on a missing or short window or when
the filter raises. -/
def compute_growth_rate (sqrtQ lnQ : ℚ → ℚ) (ws : List (String × Frame)) :
    List (String × OQ) :=
  match ws.lookup "OD" with
  | none => []
  | some od_df =>
    if od_df.length < 5 then []
    else
      let ln_od := (values od_df).map (fun v => v.map (fun x => lnQ (max x (1/100))))
      match savgolDeriv1 ln_od with
      | none => []
      | some deriv =>
        [("mu", oMul (deriv.getLastD none) (some 3600)),
         ("mu_mean", oMul (npMean deriv) (some 3600)),
         ("mu_std", oMul ((npVar deriv).map sqrtQ) (some 3600))]

/-- Stage _compute_specific_rates: when OUR and OD_mean are both present
(possibly NaN), estimate DCW as 0.4 OD_mean and, when that estimate
exceeds 0.01 (false for NaN), emit qO2 = OUR / DCW and, when CER is
present, qCO2 = CER / DCW.  The windows argument of the source is
unused. -/
def compute_specific_rates (features : List (String × OQ))
    (_ws : List (String × Frame)) : List (String × OQ) :=
  match features.lookup "OUR", features.lookup "OD_mean" with
  | some our, some od_mean =>
    let dcw := oMul (some (2/5)) od_mean
    if (match dcw with | some d => decide (d > 1/100) | none => false) then
      ("qO2", oDiv our dcw) ::
        (match features.lookup "CER" with
         | some cer => [("qCO2", oDiv cer dcw)]
         | none => [])
    else []
  | _, _ => []

/-- Stage _compute_kla: when OUR and DO_mean are present, the saturation
concentration is 8 (P / P_std) with the pressure mean defaulting to the
standard pressure when absent, the current concentration is
(DO_mean / 100) of saturation, and when the driving force exceeds 0.1
(false for NaN), kLa = 32000 OUR / driving force.  The windows argument
of the source is unused. -/
def compute_kla (_ws : List (String × Frame)) (features : List (String × OQ)) :
    List (String × OQ) :=
  match features.lookup "OUR", features.lookup "DO_mean" with
  | some our, some do_percent =>
    let p := (features.lookup "Reactor_Pressure_mean").getD (some standard_pressure_bar)
    let c_star := oMul (some 8) (oDiv p (some standard_pressure_bar))
    let c_o2 := oMul (oDiv do_percent (some 100)) c_star
    let delta_c := oSub c_star c_o2
    if (match delta_c with | some d => decide (d > 1/10) | none => false) then
      [("kLa", oDiv (oMul our (some 32000)) delta_c)]
    else []
  | _, _ => []

/-- Stage _compute_thermal_features (the module-level patched version, which
reads the windows): skipna means of the five temperature windows under
their canonical names; gradient and deviations when both operands are
finite, and the motor temperature with its above-60 warning flag. -/
def compute_thermal_features (ws : List (String × Frame)) : List (String × OQ) :=
  let t_broth := col_mean (wget ws "Temp_Broth")
  let t_exhaust := col_mean (wget ws "Temp_Exhaust")
  let t_ph := col_mean (wget ws "Temp_pH_Probe")
  let t_do := col_mean (wget ws "Temp_DO_Probe")
  let t_motor := col_mean (wget ws "Temp_Stirrer_Motor")
  (match t_broth, t_exhaust with
   | some b, some e => [("temp_gradient_broth_exhaust", some (b - e))]
   | _, _ => []) ++
  (match t_broth, t_ph with
   | some b, some p => [("temp_deviation_ph_probe", some |b - p|)]
   | _, _ => []) ++
  (match t_broth, t_do with
   | some b, some d => [("temp_deviation_do_probe", some |b - d|)]
   | _, _ => []) ++
  (match t_motor with
   | some m =>
     [("motor_temp", some m),
      ("motor_temp_warning", some (if m > 60 then 1 else 0))]
   | none => [])

/-- Stage _compute_pressure_features (the module-level patched version): the
skipna pressure mean, its deviation from the standard pressure and the
anomaly flag for a deviation of magnitude above 0.1 bar. -/
def compute_pressure_features (ws : List (String × Frame)) : List (String × OQ) :=
  match col_mean (wget ws "Reactor_Pressure") with
  | some p =>
    let dev := p - standard_pressure_bar
    [("pressure_deviation", some dev),
     ("pressure_anomaly", some (if |dev| > 1/10 then 1 else 0))]
  | none => []

/-- Stage _compute_process_state: when mu is present, the one-hot phase flags:
lag for mu below 0.02, exp for mu at least 0.08, stationary otherwise
(both float comparisons are false for a NaN mu, which therefore lands in
the stationary branch).  The windows argument of the source is unused. -/
def compute_process_state (features : List (String × OQ))
    (_ws : List (String × Frame)) : List (String × OQ) :=
  match features.lookup "mu" with
  | none => []
  | some mv =>
    let isLag := match mv with | some m => decide (m < 1/50) | none => false
    let isExp := match mv with | some m => decide (m ≥ 2/25) | none => false
    if isLag then
      [("phase_lag", some 1), ("phase_exp", some 0), ("phase_stationary", some 0)]
    else if isExp then
      [("phase_lag", some 0), ("phase_exp", some 1), ("phase_stationary", some 0)]
    else
      [("phase_lag", some 0), ("phase_exp", some 0), ("phase_stationary", some 1)]

/-- The cumulative history owned by the FeatureEngineer: none models the
empty dict (freshly constructed or reset), otherwise the three running
integrals (each possibly NaN). -/
abbrev Hist := Option (OQ × OQ × OQ)

/-- FeatureEngineer.reset_history: the history dict is emptied. -/
def reset_history : Hist := none

/-- Stage _compute_cumulative_features: integrate by dt = window / 3600 hours;
absent CER, OUR, OD_mean default to 0; an empty history is initialised
to three zeros; each integral gains rate times dt and the three features
are emitted alongside the updated history. -/
def compute_cumulative_features (hist : Hist) (features : List (String × OQ)) :
    List (String × OQ) × (OQ × OQ × OQ) :=
  let dt : ℚ := window_size_seconds / 3600
  let cer := (features.lookup "CER").getD (some 0)
  let our := (features.lookup "OUR").getD (some 0)
  let od := (features.lookup "OD_mean").getD (some 0)
  let h := hist.getD (some 0, some 0, some 0)
  let c1 := oAdd h.1 (oMul cer (some dt))
  let c2 := oAdd h.2.1 (oMul our (some dt))
  let c3 := oAdd h.2.2 (oMul od (some dt))
  ([("cumulative_CO2", c1), ("cumulative_O2", c2), ("cumulative_OD", c3)],
   (c1, c2, c3))

/-- FeatureEngineer.engineer_features: the nine sub-stages in source
order, each appended to the accumulating feature dict (stage keys are
pairwise distinct for the pipeline's windows, so list append with
first-match lookup models dict update), with the cumulative stage also
updating the history. -/
def engineer_features (sqrtQ lnQ : ℚ → ℚ) (hist : Hist)
    (ws : List (String × Frame)) : List (String × OQ) × Hist :=
  let f1 := compute_basic_features sqrtQ ws
  let f2 := f1 ++ compute_gas_balance_features ws
  let f3 := f2 ++ compute_growth_rate sqrtQ lnQ ws
  let f4 := f3 ++ compute_specific_rates f3 ws
  let f5 := f4 ++ compute_kla ws f4
  let f6 := f5 ++ compute_thermal_features ws
  let f7 := f6 ++ compute_pressure_features ws
  let f8 := f7 ++ compute_process_state f7 ws
  let (cum, hist') := compute_cumulative_features hist f8
  (f8 ++ cum, hist')

/-! ## TSDB gateway (influx_client.py, class InfluxClient) -/

/-- A Python float as it reaches write_features: NaN, an infinity, or a
finite value. -/
inductive PyF where
  | nan
  | posinf
  | neginf
  | num (q : ℚ)
  deriving Repr, DecidableEq

/-- pd.notna: false exactly on NaN (and None, not modelled); true on
finite values and on both infinities. -/
def pd_notna : PyF → Bool
  | .nan => false
  | _ => true

/-- An engineered feature value as a Python float. -/
def oqToPyF : OQ → PyF
  | none => .nan
  | some q => .num q

/-- The engineered feature dict as the float map handed to
write_features. -/
def toLines (features : List (String × OQ)) : List (String × PyF) :=
  features.map (fun p => (p.1, oqToPyF p.2))

/-- write_features: one line-protocol point per feature whose value
passes pd.notna; the returned list is the set of written points. -/
def write_features (features : List (String × PyF)) : List (String × PyF) :=
  features.filter (fun p => pd_notna p.2)

/-- get_sensor_window on the outcome of the Flux query: the rows on
success (an empty result is returned as an empty window), and an empty
window for every raised error, which the bare except swallows. -/
def get_sensor_window (qr : Except String Frame) : Frame :=
  match qr with
  | .ok df => df
  | .error _ => []

/-- ALL_SENSOR_TAGS: the raw tag list the pipeline fetches, with the ten
aliased raw names (broth, ph_probe, do_probe, stirrer_motor, exhaust,
headspace, co2, o2, flow_in, flow_out) as they appear in the source. -/
def ALL_SENSOR_TAGS : List String :=
  ["pH", "DO", "OD", "Gas_MFC_air", "Stir_SP", "Stir_torque", "Weight",
   "Heater_PID_out", "Base_Pump_Rate", "broth", "ph_probe", "do_probe",
   "stirrer_motor", "exhaust", "headspace", "co2", "o2", "flow_in", "flow_out"]

/-! ## Orchestrator (pipeline.py, class DataPipeline) -/

/-- The observable stages of one processing cycle.  The updateMetrics
and evaluateAlerts stages name the MonitoringService entry points
(monitoring.py update_metrics, check_quality_thresholds and
check_feature_thresholds). -/
inductive PipeEvent where
  | fetchWindows
  | cleanTag (tag : String)
  | engineerStage
  | writeStage
  | updateMetrics
  | evaluateAlerts
  deriving Repr, DecidableEq

/-- The orchestrator state: the raw store per measurement (a query
outcome per tag), the cleaner's global stats, the engineer's history and
the cycle counter. -/
structure PipeState where
  db : List (String × Except String Frame)
  stats : QualityStats
  history : Hist
  cycle_count : ℕ

/-- The query outcome for a tag: the stored outcome, or a successful
empty result for a measurement with no data. -/
def dbQuery (s : PipeState) (tag : String) : Except String Frame :=
  (s.db.lookup tag).getD (.ok [])

/-- get_all_sensor_windows: fan-out of get_sensor_window over the tag
list, keyed by the raw tag names. -/
def get_all_sensor_windows (s : PipeState) : List (String × Frame) :=
  ALL_SENSOR_TAGS.map (fun t => (t, get_sensor_window (dbQuery s t)))

/-- clean_window mapped over the fetched windows, threading the global
stats in order. -/
def clean_all (sqrtQ : ℚ → ℚ) (stats : QualityStats)
    (ws : List (String × Frame)) :
    List (String × Frame) × List (String × CleanReport) × QualityStats :=
  match ws with
  | [] => ([], [], stats)
  | (tag, df) :: rest =>
    let (c, r, stats1) := clean_window sqrtQ stats df tag
    let (cs, rs, stats2) := clean_all sqrtQ stats1 rest
    ((tag, c) :: cs, (tag, r) :: rs, stats2)

/-- process_window: fetch all windows, clean each, engineer features
from the cleaned map, write the features, bump the cycle counter and
return the features; alongside, the ordered stage events of the cycle.
The source body contains no call into the MonitoringService. -/
def process_window (sqrtQ lnQ : ℚ → ℚ) (s : PipeState) :
    Option (List (String × OQ)) × PipeState × List PipeEvent :=
  let raw := get_all_sensor_windows s
  let (cleaned, _reports, stats') := clean_all sqrtQ s.stats raw
  let (features, hist') := engineer_features sqrtQ lnQ s.history cleaned
  let _written := write_features (toLines features)
  (some features,
   ⟨s.db, stats', hist', s.cycle_count + 1⟩,
   .fetchWindows :: (raw.map (fun p => .cleanTag p.1) ++ [.engineerStage, .writeStage]))

/-- DataPipeline.reset_batch: reset the cleaner stats, empty the
engineer history, zero the cycle counter. -/
def reset_batch (s : PipeState) : PipeState :=
  ⟨s.db, initStats, reset_history, 0⟩

/-! ## Theorems -/

/-- pd.notna passes exactly the non-NaN values. -/
theorem pd_notna_eq_true_iff (v : PyF) : pd_notna v = true ↔ v ≠ PyF.nan := by
  cases v <;> simp [pd_notna]

/-- C10: cleaning an empty window returns the window unchanged together
with the report carrying only status empty and action none, and leaves
every global QualityStats counter untouched. -/
theorem clean_window_empty_frame (sqrtQ : ℚ → ℚ) (stats : QualityStats)
    (tag : String) :
    clean_window sqrtQ stats [] tag = ([], emptyReport, stats) := rfl

/-- C3 counterexample: a feature map holding a positive infinity passes
the pd.notna filter unchanged, so an infinite value is written, contrary
to the claim that only values neither NaN nor infinite are written. -/
theorem write_features_passes_infinity :
    write_features [("kLa", PyF.posinf)] = [("kLa", PyF.posinf)] := rfl

/-- C3 amended: a feature is written if and only if it is in the map
passed to write_features and its value is not NaN; infinities are not
filtered. -/
theorem write_features_mem_iff (fs : List (String × PyF)) (name : String)
    (v : PyF) : (name, v) ∈ write_features fs ↔ (name, v) ∈ fs ∧ v ≠ PyF.nan := by
  simp [write_features, List.mem_filter, pd_notna_eq_true_iff]

/-- C9 counterexample: with the store raising an authentication-style
error for the pH query, get_sensor_window swallows the error into an
empty window and the orchestrator still returns a feature set, so the
cycle is not treated as failed. -/
theorem query_error_cycle_not_failed :
    get_sensor_window (dbQuery ⟨[("pH", Except.error "connection refused")],
        initStats, none, 0⟩ "pH") = [] ∧
    (process_window (fun q => q) (fun q => q)
        ⟨[("pH", Except.error "connection refused")], initStats, none, 0⟩).1.isSome
      = true := ⟨rfl, rfl⟩

/-- C9 amended: get_sensor_window returns an empty window on every query
error (none is surfaced) as well as the rows of any successful query,
and process_window always returns a feature set, never a cycle-failure
indicator, whatever the query outcomes are. -/
theorem get_sensor_window_never_surfaces_errors (e : String) (df : Frame)
    (sqrtQ lnQ : ℚ → ℚ) (s : PipeState) :
    get_sensor_window (Except.error e) = [] ∧
    get_sensor_window (Except.ok df) = df ∧
    (process_window sqrtQ lnQ s).1.isSome = true := ⟨rfl, rfl, rfl⟩

/-- C2 counterexample: in a concrete cycle the orchestrator's event
trace contains neither a metrics update nor an alert evaluation, contrary
to the claim that both are performed each cycle. -/
theorem process_window_no_monitoring_events :
    PipeEvent.updateMetrics ∉
      (process_window (fun q => q) (fun q => q) ⟨[], initStats, none, 0⟩).2.2 ∧
    PipeEvent.evaluateAlerts ∉
      (process_window (fun q => q) (fun q => q) ⟨[], initStats, none, 0⟩).2.2 := by
  decide

/-- C2 amended: every invocation of process_window performs, in fixed
order, the fetch of all windows, the cleaning of each tag, the feature
engineering and the feature write; no metrics update and no alert
evaluation occur in the cycle. -/
theorem process_window_stage_order (sqrtQ lnQ : ℚ → ℚ) (s : PipeState) :
    (process_window sqrtQ lnQ s).2.2 =
      PipeEvent.fetchWindows ::
        (ALL_SENSOR_TAGS.map PipeEvent.cleanTag ++
          [PipeEvent.engineerStage, PipeEvent.writeStage]) ∧
    PipeEvent.updateMetrics ∉ (process_window sqrtQ lnQ s).2.2 ∧
    PipeEvent.evaluateAlerts ∉ (process_window sqrtQ lnQ s).2.2 := by
  have htrace : (process_window sqrtQ lnQ s).2.2 =
      PipeEvent.fetchWindows ::
        (ALL_SENSOR_TAGS.map PipeEvent.cleanTag ++
          [PipeEvent.engineerStage, PipeEvent.writeStage]) := by
    simp [process_window, get_all_sensor_windows, List.map_map, Function.comp]
  refine ⟨htrace, ?_, ?_⟩ <;> rw [htrace] <;> decide

/-- C8: whenever the mu key is present in the feature map, the phase
flags are an exact one-hot triple, and for a finite mu the boundaries
are: below 0.02 lag, in [0.02, 0.08) stationary, at least 0.08 exp (so
exactly 0.02 selects stationary and exactly 0.08 selects exp). -/
theorem phase_one_hot (features : List (String × OQ)) (ws : List (String × Frame))
    (mv : OQ) (h : features.lookup "mu" = some mv) :
    (((compute_process_state features ws).lookup "phase_lag",
      (compute_process_state features ws).lookup "phase_exp",
      (compute_process_state features ws).lookup "phase_stationary")
        = (some (some 1), some (some 0), some (some 0)) ∨
     ((compute_process_state features ws).lookup "phase_lag",
      (compute_process_state features ws).lookup "phase_exp",
      (compute_process_state features ws).lookup "phase_stationary")
        = (some (some 0), some (some 1), some (some 0)) ∨
     ((compute_process_state features ws).lookup "phase_lag",
      (compute_process_state features ws).lookup "phase_exp",
      (compute_process_state features ws).lookup "phase_stationary")
        = (some (some 0), some (some 0), some (some 1))) ∧
    (∀ m : ℚ, mv = some m →
      (m < 1/50 →
        (compute_process_state features ws).lookup "phase_lag" = some (some 1)) ∧
      (1/50 ≤ m → m < 2/25 →
        (compute_process_state features ws).lookup "phase_stationary" = some (some 1)) ∧
      (2/25 ≤ m →
        (compute_process_state features ws).lookup "phase_exp" = some (some 1))) := by
  simp only [compute_process_state, h]
  cases mv with
  | none => simp [List.lookup]
  | some m =>
    by_cases h1 : m < 1/50
    · have hd1 : decide (m < 1/50) = true := decide_eq_true h1
      simp only [hd1, if_true]
      refine ⟨Or.inl (by simp [List.lookup]), ?_⟩
      intro m' hm'
      obtain rfl : m = m' := by injection hm'
      refine ⟨fun _ => by simp [List.lookup], fun hle _ => absurd h1 (not_lt.mpr hle),
        fun hge => ?_⟩
      exact absurd h1 (not_lt.mpr (le_trans (by norm_num) hge))
    · by_cases h2 : m ≥ 2/25
      · have hd1 : decide (m < 1/50) = false := decide_eq_false h1
        have hd2 : decide (m ≥ 2/25) = true := decide_eq_true h2
        simp only [hd1, hd2, Bool.false_eq_true, if_false, if_true]
        refine ⟨Or.inr (Or.inl (by simp [List.lookup])), ?_⟩
        intro m' hm'
        obtain rfl : m = m' := by injection hm'
        exact ⟨fun hlt => absurd hlt h1, fun _ hlt => absurd hlt (not_lt.mpr h2),
          fun _ => by simp [List.lookup]⟩
      · have hd1 : decide (m < 1/50) = false := decide_eq_false h1
        have hd2 : decide (m ≥ 2/25) = false := decide_eq_false h2
        simp only [hd1, hd2, Bool.false_eq_true, if_false]
        refine ⟨Or.inr (Or.inr (by simp [List.lookup])), ?_⟩
        intro m' hm'
        obtain rfl : m = m' := by injection hm'
        exact ⟨fun hlt => absurd hlt h1, fun _ _ => by simp [List.lookup],
          fun hge => absurd (hge : 2/25 ≤ m) (not_le.mpr (lt_of_not_ge h2))⟩

/-- C8 witness: with mu exactly 0.02 the stationary flag is the selected
one-hot entry. -/
theorem phase_one_hot_witness :
    (((compute_process_state [("mu", some (1/50))] []).lookup "phase_lag",
      (compute_process_state [("mu", some (1/50))] []).lookup "phase_exp",
      (compute_process_state [("mu", some (1/50))] []).lookup "phase_stationary")
        = (some (some 1), some (some 0), some (some 0)) ∨
     ((compute_process_state [("mu", some (1/50))] []).lookup "phase_lag",
      (compute_process_state [("mu", some (1/50))] []).lookup "phase_exp",
      (compute_process_state [("mu", some (1/50))] []).lookup "phase_stationary")
        = (some (some 0), some (some 1), some (some 0)) ∨
     ((compute_process_state [("mu", some (1/50))] []).lookup "phase_lag",
      (compute_process_state [("mu", some (1/50))] []).lookup "phase_exp",
      (compute_process_state [("mu", some (1/50))] []).lookup "phase_stationary")
        = (some (some 0), some (some 0), some (some 1))) ∧
    (∀ m : ℚ, (some (1/50) : OQ) = some m →
      (m < 1/50 →
        (compute_process_state [("mu", some (1/50))] []).lookup "phase_lag"
          = some (some 1)) ∧
      (1/50 ≤ m → m < 2/25 →
        (compute_process_state [("mu", some (1/50))] []).lookup "phase_stationary"
          = some (some 1)) ∧
      (2/25 ≤ m →
        (compute_process_state [("mu", some (1/50))] []).lookup "phase_exp"
          = some (some 1))) :=
  phase_one_hot [("mu", some (1/50))] [] (some (1/50)) rfl

/-- C7 counterexample: immediately after reset_batch the history is
cleared, yet on the first cycle with CER equal to 1 the cumulative_CO2
feature equals 1/120, whose absolute value is not below one millionth;
the claimed bound does not hold regardless of the rates. -/
theorem first_cycle_cumulative_not_small :
    ((compute_cumulative_features
        (reset_batch ⟨[], ⟨9, 9, 9, 9, 9⟩, some (some 5, some 5, some 5), 7⟩).history
        [("CER", some 1), ("OUR", some 0), ("OD_mean", some 0)]).1.lookup
      "cumulative_CO2") = some (some (1/120)) ∧
    ¬(|(1 : ℚ)/120| < 1/1000000) := by
  constructor
  · norm_num [compute_cumulative_features, reset_batch, reset_history, oAdd, oMul,
      window_size_seconds, List.lookup]
  · rw [abs_of_pos (by norm_num : (0:ℚ) < 1/120)]
    norm_num

/-- C7 amended: after reset_batch the history is cleared, and on the
first subsequent cycle each cumulative feature equals its rate times
dt = 30/3600 h (absent rates default to zero); it is below one millionth
in absolute value exactly when the rate is below 0.00012 in absolute
value, not regardless of the rates. -/
theorem first_cycle_cumulative_eq_rate_dt (features : List (String × OQ))
    (c o d : ℚ)
    (hc : features.lookup "CER" = some (some c))
    (ho : features.lookup "OUR" = some (some o))
    (hd : features.lookup "OD_mean" = some (some d)) :
    (compute_cumulative_features reset_history features).1 =
      [("cumulative_CO2", some (c * (30/3600))),
       ("cumulative_O2", some (o * (30/3600))),
       ("cumulative_OD", some (d * (30/3600)))] ∧
    (|c * (30/3600)| < 1/1000000 ↔ |c| < 3/25000) := by
  constructor
  · simp [compute_cumulative_features, reset_history, hc, ho, hd, oAdd, oMul,
      window_size_seconds]
  · rw [abs_mul, abs_of_pos (by norm_num : (0:ℚ) < 30/3600)]
    constructor <;> intro h <;> linarith

/-- C7 witness: a first cycle after reset with concrete rates 1, 2, 3. -/
theorem first_cycle_cumulative_eq_rate_dt_witness :
    (compute_cumulative_features reset_history
        [("CER", some 1), ("OUR", some 2), ("OD_mean", some 3)]).1 =
      [("cumulative_CO2", some (1 * (30/3600))),
       ("cumulative_O2", some (2 * (30/3600))),
       ("cumulative_OD", some (3 * (30/3600)))] ∧
    (|(1:ℚ) * (30/3600)| < 1/1000000 ↔ |(1:ℚ)| < 3/25000) :=
  first_cycle_cumulative_eq_rate_dt
    [("CER", some 1), ("OUR", some 2), ("OD_mean", some 3)] 1 2 3 rfl rfl rfl

/-- C4 counterexample: a window whose estimated gap is exactly 5.0
minutes selects the Kalman smoother, not linear interpolation as
claimed. -/
theorem gap_exactly_five_selects_kalman :
    missing_gap_minutes [((0:ℚ), some 7), (600, none)] = 5 ∧
    (handle_missing initStats [((0:ℚ), some 7), (600, none)]).2.1.interpolation_method
      = "kalman" := by
  have hgap : missing_gap_minutes [((0:ℚ), some 7), (600, none)] = 5 := by
    norm_num [missing_gap_minutes, missingCount, timeSpanSeconds, values,
      List.countP_cons, List.countP_nil, max_def, min_def]
  refine ⟨hgap, ?_⟩
  have hmc : missingCount [((0:ℚ), some 7), (600, none)] = 1 := by
    norm_num [missingCount, values, List.countP_cons, List.countP_nil]
  simp only [handle_missing, hmc, hgap, max_missing_duration_interpolate_minutes,
    max_missing_duration_kalman_minutes]
  norm_num

/-- C4 amended: for a window with at least one missing value the gap is
(missing count / total count) times the window span in minutes, and the
mode is selected by: gap strictly below 5 minutes linear interpolation;
gap at least 5 and below 30 minutes (so also a gap of exactly 5.0) the
Kalman smoother; gap at least 30 minutes failed, with the
missing_data_too_long alarm and the NaN values left in place. -/
theorem missing_mode_selection (stats : QualityStats) (f : Frame)
    (h : 0 < missingCount f) :
    (handle_missing stats f).2.1.missing_duration_minutes
      = some (missing_gap_minutes f) ∧
    (missing_gap_minutes f < 5 →
      (handle_missing stats f).2.1.interpolation_method = "linear") ∧
    (5 ≤ missing_gap_minutes f → missing_gap_minutes f < 30 →
      (handle_missing stats f).2.1.interpolation_method = "kalman") ∧
    (30 ≤ missing_gap_minutes f →
      (handle_missing stats f).2.1.interpolation_method = "failed" ∧
      (handle_missing stats f).2.1.alarm = some "missing_data_too_long" ∧
      (handle_missing stats f).1 = f) := by
  have hne : ¬ missingCount f = 0 := Nat.pos_iff_ne_zero.mp h
  simp only [handle_missing, hne, if_false, max_missing_duration_interpolate_minutes,
    max_missing_duration_kalman_minutes]
  split_ifs with hg1 hg2
  · exact ⟨rfl, fun _ => rfl, fun hle _ => absurd hg1 (not_lt.mpr hle),
      fun hge => absurd hg1 (not_lt.mpr (le_trans (by norm_num) hge))⟩
  · exact ⟨rfl, fun hlt => absurd hlt hg1, fun _ _ => rfl,
      fun hge => absurd hg2 (not_lt.mpr hge)⟩
  · exact ⟨rfl, fun hlt => absurd hlt hg1, fun _ hlt => absurd hlt hg2,
      fun _ => ⟨rfl, rfl, rfl⟩⟩

/-- C4 witness: a 30-second window with one missing sample has a gap of
half a minute and selects linear interpolation. -/
theorem missing_mode_selection_witness :
    (handle_missing initStats [((0:ℚ), some 1), (60, none)]).2.1.interpolation_method
      = "linear" := by
  have h : 0 < missingCount [((0:ℚ), some 1), (60, none)] := by
    norm_num [missingCount, values, List.countP_cons, List.countP_nil]
  exact (missing_mode_selection initStats [((0:ℚ), some 1), (60, none)] h).2.1
    (by norm_num [missing_gap_minutes, missingCount, timeSpanSeconds, values,
      List.countP_cons, List.countP_nil, max_def, min_def])

/-- C6: whenever the gas-balance stage runs (the four required means
are finite), CER and OUR are produced, and a point named RQ is written
by write_features exactly when OUR is positive, in which case its value
is CER / OUR; when OUR is nonpositive the RQ entry is NaN and no RQ
point reaches the store. -/
theorem rq_emitted_iff_our_positive (ws : List (String × Frame))
    (fin yco2 yo2 p : ℚ)
    (h1 : col_mean (wget ws "Gas_Flow_Inlet") = some fin)
    (h2 : col_mean (wget ws "Off_Gas_CO2") = some yco2)
    (h3 : col_mean (wget ws "Off_Gas_O2") = some yo2)
    (h4 : col_mean (wget ws "Reactor_Pressure") = some p) :
    ∃ cer our : ℚ,
      (compute_gas_balance_features ws).lookup "CER" = some (some cer) ∧
      (compute_gas_balance_features ws).lookup "OUR" = some (some our) ∧
      (0 < our →
        (write_features (toLines (compute_gas_balance_features ws))).lookup "RQ"
          = some (PyF.num (cer / our))) ∧
      (our ≤ 0 →
        (write_features (toLines (compute_gas_balance_features ws))).lookup "RQ"
          = none) := by
  simp only [compute_gas_balance_features, h1, h2, h3, h4, Option.map_some']
  refine ⟨_, _, rfl, rfl, ?_, ?_⟩
  · intro hpos
    rw [if_pos hpos]
    simp [write_features, toLines, oqToPyF, pd_notna, List.lookup]
  · intro hnonpos
    rw [if_neg (not_lt.mpr hnonpos)]
    simp [write_features, toLines, oqToPyF, pd_notna, List.lookup]

/-- C6 witness: concrete nonempty gas windows (inlet flow 1 L/min, 2
percent CO2, 20 percent O2, 1 bar). -/
theorem rq_emitted_iff_our_positive_witness :
    ∃ cer our : ℚ,
      (compute_gas_balance_features
        [("Gas_Flow_Inlet", [((0:ℚ), some 1)]), ("Off_Gas_CO2", [((0:ℚ), some 2)]),
         ("Off_Gas_O2", [((0:ℚ), some 20)]),
         ("Reactor_Pressure", [((0:ℚ), some 1)])]).lookup "CER" = some (some cer) ∧
      (compute_gas_balance_features
        [("Gas_Flow_Inlet", [((0:ℚ), some 1)]), ("Off_Gas_CO2", [((0:ℚ), some 2)]),
         ("Off_Gas_O2", [((0:ℚ), some 20)]),
         ("Reactor_Pressure", [((0:ℚ), some 1)])]).lookup "OUR" = some (some our) ∧
      (0 < our →
        (write_features (toLines (compute_gas_balance_features
          [("Gas_Flow_Inlet", [((0:ℚ), some 1)]), ("Off_Gas_CO2", [((0:ℚ), some 2)]),
           ("Off_Gas_O2", [((0:ℚ), some 20)]),
           ("Reactor_Pressure", [((0:ℚ), some 1)])]))).lookup "RQ"
          = some (PyF.num (cer / our))) ∧
      (our ≤ 0 →
        (write_features (toLines (compute_gas_balance_features
          [("Gas_Flow_Inlet", [((0:ℚ), some 1)]), ("Off_Gas_CO2", [((0:ℚ), some 2)]),
           ("Off_Gas_O2", [((0:ℚ), some 20)]),
           ("Reactor_Pressure", [((0:ℚ), some 1)])]))).lookup "RQ" = none) :=
  rq_emitted_iff_our_positive
    [("Gas_Flow_Inlet", [((0:ℚ), some 1)]), ("Off_Gas_CO2", [((0:ℚ), some 2)]),
     ("Off_Gas_O2", [((0:ℚ), some 20)]), ("Reactor_Pressure", [((0:ℚ), some 1)])]
    1 2 20 1
    (by
      have hw : wget [("Gas_Flow_Inlet", [((0:ℚ), some 1)]),
          ("Off_Gas_CO2", [((0:ℚ), some 2)]), ("Off_Gas_O2", [((0:ℚ), some 20)]),
          ("Reactor_Pressure", [((0:ℚ), some 1)])] "Gas_Flow_Inlet"
          = [((0:ℚ), some 1)] := rfl
      simp only [col_mean, hw]
      norm_num [pdMean, values, List.filterMap_cons, List.filterMap_nil])
    (by
      have hw : wget [("Gas_Flow_Inlet", [((0:ℚ), some 1)]),
          ("Off_Gas_CO2", [((0:ℚ), some 2)]), ("Off_Gas_O2", [((0:ℚ), some 20)]),
          ("Reactor_Pressure", [((0:ℚ), some 1)])] "Off_Gas_CO2"
          = [((0:ℚ), some 2)] := rfl
      simp only [col_mean, hw]
      norm_num [pdMean, values, List.filterMap_cons, List.filterMap_nil])
    (by
      have hw : wget [("Gas_Flow_Inlet", [((0:ℚ), some 1)]),
          ("Off_Gas_CO2", [((0:ℚ), some 2)]), ("Off_Gas_O2", [((0:ℚ), some 20)]),
          ("Reactor_Pressure", [((0:ℚ), some 1)])] "Off_Gas_O2"
          = [((0:ℚ), some 20)] := rfl
      simp only [col_mean, hw]
      norm_num [pdMean, values, List.filterMap_cons, List.filterMap_nil])
    (by
      have hw : wget [("Gas_Flow_Inlet", [((0:ℚ), some 1)]),
          ("Off_Gas_CO2", [((0:ℚ), some 2)]), ("Off_Gas_O2", [((0:ℚ), some 20)]),
          ("Reactor_Pressure", [((0:ℚ), some 1)])] "Reactor_Pressure"
          = [((0:ℚ), some 1)] := rfl
      simp only [col_mean, hw]
      norm_num [pdMean, values, List.filterMap_cons, List.filterMap_nil])

/-- Every row surviving _validate_bounds for a tag with declared bounds
is NaN or within the bounds. -/
theorem validate_bounds_frame_mem (l : Frame) (tag : String) (lo hi : ℚ)
    (hb : physical_bounds tag = some (lo, hi)) :
    ∀ pr ∈ (validate_bounds l tag).1,
      pr.2 = none ∨ ∃ x : ℚ, pr.2 = some x ∧ lo ≤ x ∧ x ≤ hi := by
  intro pr hm
  simp only [validate_bounds, hb] at hm
  rw [apply_ite Prod.fst] at hm
  split_ifs at hm with hc
  · obtain ⟨q, hq, hq2⟩ := List.mem_map.mp hm
    by_cases hinv : (match q.2 with
        | some x => decide (x < lo ∨ x > hi)
        | none => false) = true
    · rw [if_pos hinv] at hq2
      left
      rw [← hq2]
    · rw [if_neg hinv] at hq2
      subst hq2
      cases hq2 : q.2 with
      | none => exact Or.inl rfl
      | some x =>
        rw [hq2] at hinv
        simp only [decide_eq_true_eq, not_or, not_lt] at hinv
        exact Or.inr ⟨x, rfl, hinv.1, hinv.2⟩
  · have h0 : (values l).countP (fun v => match v with
        | some x => decide (x < lo ∨ x > hi)
        | none => false) = 0 := by omega
    have hall := List.countP_eq_zero.mp h0 pr.2
      (List.mem_map_of_mem Prod.snd hm)
    cases hpr : pr.2 with
    | none => exact Or.inl rfl
    | some x =>
      rw [hpr] at hall
      simp only [decide_eq_true_eq, not_or, not_lt] at hall
      exact Or.inr ⟨x, rfl, hall.1, hall.2⟩

/-- On a nonempty window, the frame returned by clean_window is the
output of the bounds stage applied after the missing and outlier
stages. -/
theorem clean_window_frame_eq (sqrtQ : ℚ → ℚ) (stats : QualityStats) (f : Frame)
    (tag : String) (hne : f ≠ []) :
    (clean_window sqrtQ stats f tag).1 =
      (validate_bounds (handle_outliers sqrtQ
        ((handle_missing stats (sortFrame f)).1)).1 tag).1 := by
  cases f with
  | nil => exact absurd rfl hne
  | cons a as => rfl

/-- C5: for every window and every tag with declared physical bounds,
every value of the cleaned window returned by clean_window is either NaN
or lies within the bounds interval; no out-of-bounds finite value
survives. -/
theorem cleaned_values_within_bounds (sqrtQ : ℚ → ℚ) (stats : QualityStats)
    (f : Frame) (tag : String) (lo hi : ℚ)
    (hb : physical_bounds tag = some (lo, hi)) :
    ∀ pr ∈ (clean_window sqrtQ stats f tag).1,
      pr.2 = none ∨ ∃ x : ℚ, pr.2 = some x ∧ lo ≤ x ∧ x ≤ hi := by
  by_cases hf : f = []
  · subst hf
    intro pr hm
    simp only [clean_window, List.isEmpty_nil, if_true] at hm
    exact absurd hm (List.not_mem_nil pr)
  · rw [clean_window_frame_eq sqrtQ stats f tag hf]
    exact validate_bounds_frame_mem _ tag lo hi hb

/-- C5 witness: the row surviving the cleaning of a one-row pH window
under the declared pH bounds [2, 10] is NaN or within them. -/
theorem cleaned_values_within_bounds_witness :
    ((0:ℚ), some (7:ℚ)).2 = none ∨
      ∃ x : ℚ, ((0:ℚ), some (7:ℚ)).2 = some x ∧ 2 ≤ x ∧ x ≤ 10 :=
  cleaned_values_within_bounds (fun q => q) initStats [((0:ℚ), some 7)] "pH" 2 10 rfl
    ((0:ℚ), some 7) (by decide)

/-- C1: the window map the orchestrator hands to the feature engineer is
keyed by the raw aliased tag names of ALL_SENSOR_TAGS, never by the
canonical names, so with nonempty raw series under flow_in, flow_out,
co2, o2, headspace, broth and exhaust the gas-balance, thermal and
pressure stages find none of their canonical keys and produce no
feature.  The store below holds a nonempty series for each aliased tag,
the cleaned map still keys them by alias, lookups of the canonical names
fail, and all three stages return the empty feature list. -/
theorem aliased_tags_never_reach_gas_features :
    let s : PipeState :=
      ⟨[("broth", Except.ok [((0:ℚ), some 30)]),
        ("exhaust", Except.ok [((0:ℚ), some 28)]),
        ("headspace", Except.ok [((0:ℚ), some 1)]),
        ("co2", Except.ok [((0:ℚ), some 2)]),
        ("o2", Except.ok [((0:ℚ), some 20)]),
        ("flow_in", Except.ok [((0:ℚ), some 1)]),
        ("flow_out", Except.ok [((0:ℚ), some 1)])],
       initStats, none, 0⟩
    let cleaned := (clean_all (fun q => q) initStats (get_all_sensor_windows s)).1
    cleaned.map Prod.fst = ALL_SENSOR_TAGS ∧
    cleaned.lookup "flow_in" = some [((0:ℚ), some 1)] ∧
    cleaned.lookup "Gas_Flow_Inlet" = none ∧
    cleaned.lookup "Temp_Broth" = none ∧
    compute_gas_balance_features cleaned = [] ∧
    compute_thermal_features cleaned = [] ∧
    compute_pressure_features cleaned = [] := by
  decide

end Pipeline
